import Mathlib

/-!
Verification of the Vouch Sonic core (src/mobile/core/src/lib.rs) against its
specification.  The Rust code is shallowly embedded: `f32` arithmetic is
modelled by exact real arithmetic (every comparison settled by a theorem below
happens at a value — zeros, small integers, short dyadic sums — where the `f32`
evaluation is exact, so rounding does not affect any statement); `usize`/`u32`
become `Nat`; byte buffers become `List Nat`; fallible operations return
`Except`; a Rust panic (reachable via `Iterator::step_by` with step 0) is
modelled by an outer `Option`, `none` meaning the call aborts instead of
returning.  The forward FFT computed by the `rustfft` dependency is modelled as
the discrete Fourier transform it implements.
-/

namespace VouchSonic

/-- Vouch Sonic watermark magic bytes `[0x56, 0x53, 0x4E, 0x43]` ("VSNC"). -/
def WATERMARK_MAGIC : List Nat := [0x56, 0x53, 0x4E, 0x43]

/-- Minimum audio samples required for detection. -/
def MIN_SAMPLES : Nat := 1024

/-- Mock DID constant used by `mock_detected`. -/
def MOCK_SIGNER_DID : String := "did:key:z6MkhaXgBZDvotDkL5257faEnNg2dFg857faEnNg"

/-- `SonicError` from the source, one constructor per Rust variant. -/
inductive SonicError where
  | invalidConfig (msg : String)
  | audioInitFailed (msg : String)
  | processingFailed (msg : String)
  | bufferTooShort (required : Nat)
  | invalidSampleRate (rate : Nat)
  | listenerAlreadyRunning
  | listenerNotRunning
  | internalError (msg : String)
  deriving DecidableEq

/-- `SonicConfig`: tunable parameters of the listener. -/
structure SonicConfig where
  sample_rate : Nat
  frame_size_ms : Nat
  detection_threshold : ℝ
  spreading_factor : Nat
  enable_chirp_sync : Bool

/-- `SonicConfig::default()`. -/
def default_config : SonicConfig :=
  { sample_rate := 16000
    frame_size_ms := 50
    detection_threshold := 0.5
    spreading_factor := 100
    enable_chirp_sync := true }

/-- `SonicConfig::validate`: range-checks sample rate, frame size and
threshold; the spreading factor is not examined. -/
noncomputable def validate (c : SonicConfig) : Except SonicError Unit :=
  if c.sample_rate < 8000 ∨ 96000 < c.sample_rate then
    Except.error (SonicError.invalidSampleRate c.sample_rate)
  else if c.frame_size_ms < 10 ∨ 1000 < c.frame_size_ms then
    Except.error (SonicError.invalidConfig "frame_size_ms must be between 10 and 1000")
  else if c.detection_threshold < 0 ∨ 1 < c.detection_threshold then
    Except.error (SonicError.invalidConfig "detection_threshold must be between 0.0 and 1.0")
  else Except.ok ()

/-- `WatermarkResult`: outcome of a detection call. -/
structure WatermarkResult where
  detected : Bool
  confidence : ℝ
  signer_did : Option String
  timestamp : Option Nat
  payload_hash : Option String
  covenant_json : Option String
  audio_quality : ℝ
  detection_method : String

/-- `WatermarkResult::default()` as produced by `#[derive(Default)]`. -/
def default_result : WatermarkResult :=
  { detected := false
    confidence := 0
    signer_did := none
    timestamp := none
    payload_hash := none
    covenant_json := none
    audio_quality := 0
    detection_method := "" }

/-- `WatermarkResult::not_detected()`. -/
def not_detected_result : WatermarkResult :=
  { default_result with
    detected := false
    confidence := 0
    detection_method := "none"
    audio_quality := 1 }

/-- `WatermarkResult::mock_detected(confidence)`.  The wall-clock timestamp is
an environment input outside the embedded program; it is modelled as `none`
(no claim mentions the timestamp field). -/
def mock_detected_result (confidence : ℝ) : WatermarkResult :=
  { detected := true
    confidence := confidence
    signer_did := some MOCK_SIGNER_DID
    timestamp := none
    payload_hash := some "a1b2c3d4e5f67890"
    covenant_json := some "\x7b\"ai_training\":false,\"voice_cloning\":false\x7d"
    audio_quality := 0.95
    detection_method := "mock" }

/-- `ListenerState`. -/
inductive ListenerState where
  | idle
  | listening
  | processing
  | error
  deriving DecidableEq

/-- Events delivered synchronously to the registered `WatermarkCallback`. -/
inductive Event where
  | audio_level (level_db : ℝ)
  | watermark_detected (result : WatermarkResult)
  | state_changed (state : ListenerState)
  | error_event (msg : String)

section Dsp

/-- One bit of the pseudo-random stream behind `generate_pn_sequence`.  The
source seeds `rand::rngs::StdRng` with a fixed constant and draws booleans;
the concrete ChaCha stream is abstracted by this fixed deterministic bit
stream.  Every theorem below depends only on the length of the generated
sequence and on its entries lying in {-1, 1}, never on the concrete bits. -/
def pn_bit (i : Nat) : Bool :=
  (i * 1103515245 + 12345) % 65536 < 32768

/-- `DspEngine::generate_pn_sequence(length)`: a ±1 sequence of the given
length, deterministic across constructions (fixed seed). -/
def pn_sequence (length : Nat) : List ℝ :=
  (List.range length).map (fun i => if pn_bit i then (1 : ℝ) else -1)

/-- Rust `(a..b).step_by(s)` for `1 ≤ s`: the list `a, a+s, a+2s, …` of
values below `b`.  (`step_by` with `s = 0` panics; callers model that case
separately.) -/
def range_step_by (a b s : Nat) : List Nat :=
  (List.range ((b - a + s - 1) / s)).map (fun i => a + i * s)

/-- Halving recursion behind `next_pow2`; the fuel bounds the recursion depth. -/
def next_pow2_aux : Nat → Nat → Nat
  | 0, _ => 1
  | fuel + 1, n => if n ≤ 1 then 1 else 2 * next_pow2_aux fuel ((n + 1) / 2)

/-- Rust `usize::next_power_of_two`: the least power of two ≥ `n` (1 for 0).
`usize` is 64 bits wide, so 64 halvings always exhaust the argument. -/
def next_pow2 (n : Nat) : Nat := next_pow2_aux 64 n

/-- `DspEngine::compute_fft`: zero-pad to the next power of two and apply the
forward discrete Fourier transform (the transform `rustfft` computes). -/
noncomputable def dft (x : List ℂ) : List ℂ :=
  (List.range x.length).map fun (k : ℕ) =>
    ∑ n ∈ Finset.range x.length,
      x.getD n 0 * Complex.exp (-(2 * Real.pi * Complex.I) * (k : ℂ) * (n : ℂ) / (x.length : ℂ))

/-- `compute_fft` on real samples: promote to complex, pad, transform. -/
noncomputable def compute_fft (samples : List ℝ) : List ℂ :=
  let len := next_pow2 samples.length
  dft ((samples.map (fun (s : ℝ) => (s : ℂ))) ++ List.replicate (len - samples.length) 0)

/-- `DspEngine::estimate_quality`. -/
noncomputable def estimate_quality (samples : List ℝ) : ℝ :=
  if samples.length < 256 then 0.5
  else
    let spectrum := compute_fft samples
    let len := spectrum.length
    let low_energy := ((spectrum.take (len / 4)).map Complex.normSq).sum
    let high_energy := (((spectrum.drop (len / 4)).take (len / 2 - len / 4)).map Complex.normSq).sum
    let ratio := high_energy / (low_energy + 1 / 10 ^ 10)
    min (min ratio 1 * 0.5 + 0.5) 1

/-- Rust `Iterator::max_by` over `iter().enumerate()` with comparison on the
second component: returns the LAST maximal element (`max_by` keeps the later
element when the comparison is not `Greater`). -/
noncomputable def max_by_last (l : List ℝ) : Option (Nat × ℝ) :=
  l.enum.foldl
    (fun acc p =>
      match acc with
      | none => some p
      | some q => if p.2 < q.2 then some q else some p)
    none

/-- One loop body of `detect_spread_spectrum`: the normalized absolute dot
product of the window starting at `start` against the ±1 sequence
(`step = pn.length` in the source). -/
noncomputable def ss_correlation (samples pn : List ℝ) (start : Nat) : ℝ :=
  let chunk := (samples.drop start).take (min pn.length (samples.length - start))
  |(((chunk.zip pn).map (fun p => p.1 * p.2)).sum)| / (pn.length : ℝ)

/-- `DspEngine::detect_spread_spectrum`.  Returns `none` when the source
panics: with `step = pn_sequence.len() ∈ {0, 1}` and enough samples, the loop
calls `step_by(step / 2) = step_by(0)`, which panics. -/
noncomputable def detect_spread_spectrum (cfg : SonicConfig) (samples : List ℝ) :
    Option (Bool × ℝ) :=
  let pn := pn_sequence cfg.spreading_factor
  if samples.length < pn.length then some (false, 0)
  else
    let step := pn.length
    if step / 2 = 0 then none
    else
      let starts := range_step_by 0 (samples.length - step) (step / 2)
      let max_correlation := starts.foldl
        (fun m start => max m (ss_correlation samples pn start)) 0
      let confidence := min (max_correlation * 10) 1
      some (if cfg.detection_threshold < confidence then true else false, confidence)

/-- `DspEngine::detect_chirp_sync`: fold over the 16-bin windows of the lower
half spectrum, counting windows whose (last-maximal) peak bin strictly
exceeds the previous window's peak bin. -/
noncomputable def detect_chirp_sync (cfg : SonicConfig) (samples : List ℝ) : Bool :=
  if cfg.enable_chirp_sync = false ∨ samples.length < 512 then false
  else
    let spectrum := compute_fft (samples.take (min 512 samples.length))
    let half := spectrum.length / 2
    let final := (range_step_by 0 half 16).foldl
      (fun (st : Nat × Nat) chunk_start =>
        let chunk := (spectrum.drop chunk_start).take (min 16 (half - chunk_start))
        let peak_bin :=
          match max_by_last (chunk.map Complex.normSq) with
          | some p => p.1 + chunk_start
          | none => 0
        (peak_bin, if st.1 < peak_bin then st.2 + 1 else st.2))
      (0, 0)
    decide (3 < final.2)

/-- `DspEngine::process`.  `none` models the `detect_spread_spectrum` panic;
the engine state consists of the configuration (the ±1 sequence is the one
generated from `spreading_factor` at construction, which never changes). -/
noncomputable def dsp_process (cfg : SonicConfig) (samples : List ℝ) :
    Option WatermarkResult :=
  if samples.length < MIN_SAMPLES then some not_detected_result
  else
    let quality := estimate_quality samples
    match detect_spread_spectrum cfg samples with
    | none => none
    | some (ss_detected, ss_confidence) =>
      let chirp_detected := detect_chirp_sync cfg samples
      let detected := ss_detected || chirp_detected
      let confidence := if chirp_detected then max ss_confidence 0.7 else ss_confidence
      if detected = true ∧ cfg.detection_threshold < confidence then
        some { mock_detected_result confidence with
               audio_quality := quality
               detection_method := if chirp_detected then "chirp_sync" else "spread_spectrum" }
      else
        some { default_result with
               detected := false
               confidence := confidence
               audio_quality := quality
               detection_method := "spread_spectrum" }

end Dsp

section MockDetector

/-- The magic-byte scan of `MockDetector::detect_in_bytes`: Rust iterates
`i ∈ 0..data.len() - 4` (exclusive upper bound) and compares each 4-byte
window to `WATERMARK_MAGIC`. -/
def magic_scan_hit (data : List Nat) : Bool :=
  (List.range (data.length - 4)).any (fun i => (data.drop i).take 4 == WATERMARK_MAGIC)

/-- `MockDetector::detect_in_bytes`. -/
noncomputable def detect_in_bytes (data : List Nat) : WatermarkResult :=
  if 4 ≤ data.length ∧ magic_scan_hit data = true then
    mock_detected_result 0.99
  else if 1024 ≤ data.length then
    let high_byte_count := ((data.drop 512).filter (fun b => 200 < b)).length
    let ratio := (high_byte_count : ℝ) / ((data.length - 512 : Nat) : ℝ)
    if (0.1 : ℝ) < ratio then mock_detected_result (min ratio 0.95)
    else not_detected_result
  else not_detected_result

/-- `MockDetector::detect_in_samples`: energy-ratio heuristic over the
`windows(2)` pairs of consecutive samples. -/
noncomputable def detect_in_samples (samples : List ℝ) : WatermarkResult :=
  if samples.length < MIN_SAMPLES then not_detected_result
  else
    let pairs := samples.zip samples.tail
    let high_energy := (pairs.map (fun p => |p.2 - p.1| * |p.2 - p.1|)).sum
    let total_energy := (pairs.map (fun p => p.1 * p.1)).sum
    let ratio := high_energy / (total_energy + 1 / 10 ^ 10)
    if (0.3 : ℝ) < ratio then mock_detected_result (min (ratio * 2) 0.95)
    else not_detected_result

end MockDetector

section Listener

/-- `SonicListener`: configuration, state, running flag, the DSP engine's own
configuration copy (`dsp_engine.config`), and the registered event sink
(`callback`, modelled as present/absent — the sink itself lives on the host
side and only receives `Event`s). -/
structure Listener where
  config : SonicConfig
  state : ListenerState
  is_running : Bool
  engine_config : SonicConfig
  callback : Option Unit

/-- `SonicListener::new(config)`: validate, then build with state `Idle`,
not running, no sink, engine initialized from the same configuration. -/
noncomputable def new_listener (cfg : SonicConfig) : Except SonicError Listener :=
  match validate cfg with
  | Except.error e => Except.error e
  | Except.ok _ =>
    Except.ok
      { config := cfg
        state := ListenerState.idle
        is_running := false
        engine_config := cfg
        callback := none }

/-- `SonicListener::emit_detection`: one detection event iff a sink is set. -/
def emit_events (l : Listener) (r : WatermarkResult) : List Event :=
  if l.callback.isSome then [Event.watermark_detected r] else []

/-- `SonicListener::start_listening(callback)`.  Returns the updated listener,
the call outcome, and the events delivered to the sink during the call. -/
def start_listening (l : Listener) :
    Listener × Except SonicError Unit × List Event :=
  if l.is_running then (l, Except.error SonicError.listenerAlreadyRunning, [])
  else
    ({ l with callback := some (), is_running := true, state := ListenerState.listening },
     Except.ok (),
     [Event.state_changed ListenerState.listening])

/-- `SonicListener::stop_listening()`.  The registered sink is not cleared. -/
def stop_listening (l : Listener) :
    Listener × Except SonicError Unit × List Event :=
  if l.is_running = false then (l, Except.error SonicError.listenerNotRunning, [])
  else
    ({ l with is_running := false, state := ListenerState.idle },
     Except.ok (),
     if l.callback.isSome then [Event.state_changed ListenerState.idle] else [])

/-- The RMS-to-decibel computation of `process_samples`:
`20.0 * rms.max(1e-10).log10()`. -/
noncomputable def audio_level_db (samples : List ℝ) : ℝ :=
  let rms := Real.sqrt ((samples.map (fun s => s * s)).sum / (samples.length : ℝ))
  20 * Real.logb 10 (max rms (1 / 10 ^ 10))

/-- `SonicListener::process_samples`.  The outer `Option` is `none` when the
engine panics (see `detect_spread_spectrum`); otherwise the listener after the
call, the returned result, and the events delivered to the sink. -/
noncomputable def process_samples (l : Listener) (samples : List ℝ) :
    Option (Listener × Except SonicError WatermarkResult × List Event) :=
  if samples.length < MIN_SAMPLES then
    some (l, Except.error (SonicError.bufferTooShort MIN_SAMPLES), [])
  else
    let l1 : Listener := { l with state := ListenerState.processing }
    let level_events :=
      if l.callback.isSome then [Event.audio_level (audio_level_db samples)] else []
    let mock_result := detect_in_samples samples
    if mock_result.detected then
      -- early return: the state set to Processing above is never reset
      some (l1, Except.ok mock_result, level_events ++ emit_events l1 mock_result)
    else
      match dsp_process l.engine_config samples with
      | none => none
      | some result =>
        let detect_events := if result.detected then emit_events l1 result else []
        let l2 : Listener :=
          { l1 with
            state := if l.is_running then ListenerState.listening else ListenerState.idle }
        some (l2, Except.ok result, level_events ++ detect_events)

/-- Decode 16-bit little-endian PCM bytes to normalized samples, as the
`chunks_exact(2)` loop of `process_buffer` does (a trailing odd byte is
dropped). -/
noncomputable def decode_pcm : List Nat → List ℝ
  | b0 :: b1 :: rest =>
    (((if b0 + 256 * b1 < 32768 then (b0 + 256 * b1 : ℤ)
       else (b0 + 256 * b1 : ℤ) - 65536) : ℤ) : ℝ) / 32768 :: decode_pcm rest
  | _ => []

/-- `SonicListener::process_buffer`. -/
noncomputable def process_buffer (l : Listener) (pcm_data : List Nat) :
    Option (Listener × Except SonicError WatermarkResult × List Event) :=
  if pcm_data.length < MIN_SAMPLES * 2 then
    some (l, Except.error (SonicError.bufferTooShort (MIN_SAMPLES * 2)), [])
  else
    let l1 : Listener := { l with state := ListenerState.processing }
    let mock_result := detect_in_bytes pcm_data
    if mock_result.detected then
      -- early return: the state set to Processing above is never reset
      some (l1, Except.ok mock_result, emit_events l1 mock_result)
    else
      process_samples l1 (decode_pcm pcm_data)

/-- `SonicListener::set_detection_threshold`: silently ignores out-of-range
values; in range, updates both the controller's and the engine's copy. -/
noncomputable def set_detection_threshold (l : Listener) (threshold : ℝ) : Listener :=
  if 0 ≤ threshold ∧ threshold ≤ 1 then
    { l with
      config := { l.config with detection_threshold := threshold }
      engine_config := { l.engine_config with detection_threshold := threshold } }
  else l

end Listener

section Verifier

/-- `VerificationResult`. -/
structure VerificationResult where
  valid : Bool
  signer_did : Option String
  error_message : Option String

/-- The `ed25519_dalek` primitives called by `verify_signature` are library
code outside this repository; they are modelled as an abstract backend.
`parse_key_error pk = some e` means `VerifyingKey::from_bytes` rejects the
(32-byte) key with message `e`; `parse_sig_error sig` likewise for
`Signature::from_slice`; `verify_error msg sig pk = some e` means
`VerifyingKey::verify` fails with message `e`, `none` that it succeeds. -/
structure Ed25519Backend where
  parse_key_error : List Nat → Option String
  parse_sig_error : List Nat → Option String
  verify_error : List Nat → List Nat → List Nat → Option String

/-- Base58 encoding used to derive the DID (`bs58::encode`). -/
def bs58_digits : List Char :=
  "123456789ABCDEFGHJKLMNPQRSTUVWXYZabcdefghijkmnopqrstuvwxyz".toList

/-- Big-endian base conversion for `bs58_encode`. -/
def bs58_digits_of (fuel n : Nat) : List Char :=
  match fuel with
  | 0 => []
  | fuel + 1 =>
    if n = 0 then []
    else bs58_digits_of fuel (n / 58) ++ [bs58_digits.getD (n % 58) '1']

/-- `bs58::encode(bytes).into_string()`: leading zero bytes become '1's, the
rest is the big-endian base-58 expansion of the byte string as a number. -/
def bs58_encode (bytes : List Nat) : String :=
  let leading := (bytes.takeWhile (fun b => b == 0)).length
  let n := bytes.foldl (fun acc b => acc * 256 + b) 0
  String.mk (List.replicate leading '1' ++ bs58_digits_of (8 * bytes.length) n)

/-- Whether every stage of `verify_signature` succeeds on the backend. -/
def ed25519_ok (B : Ed25519Backend) (message signature public_key : List Nat) : Prop :=
  public_key.length = 32 ∧
  B.parse_key_error public_key = none ∧
  B.parse_sig_error signature = none ∧
  B.verify_error message signature public_key = none

/-- `SignatureVerifier::verify_signature`: every failure path returns an
invalid `VerificationResult` carrying a message; no path fails the caller. -/
def verify_signature (B : Ed25519Backend)
    (message signature public_key : List Nat) : VerificationResult :=
  if public_key.length = 32 then
    match B.parse_key_error public_key with
    | some e =>
      { valid := false, signer_did := none
        error_message := some ("Invalid public key: " ++ e) }
    | none =>
      match B.parse_sig_error signature with
      | some e =>
        { valid := false, signer_did := none
          error_message := some ("Invalid signature: " ++ e) }
      | none =>
        match B.verify_error message signature public_key with
        | some e =>
          { valid := false, signer_did := none
            error_message := some ("Signature verification failed: " ++ e) }
        | none =>
          { valid := true
            signer_did := some ("did:key:z6Mk" ++ bs58_encode public_key)
            error_message := none }
  else
    { valid := false, signer_did := none
      error_message := some "Public key must be 32 bytes" }

/-- A backend whose cryptographic verification always fails — the behavior
`ed25519_dalek` exhibits on the all-zero signature/key pair of the
repository's own `test_signature_verifier`. -/
def rejecting_backend : Ed25519Backend :=
  { parse_key_error := fun _ => none
    parse_sig_error := fun _ => none
    verify_error := fun _ _ _ => some "Verification equation was not satisfied" }

/-- The bytes of `b"test message"`, the message of the repository's own
signature-verifier test. -/
def test_message_bytes : List Nat :=
  [116, 101, 115, 116, 32, 109, 101, 115, 115, 97, 103, 101]

end Verifier

/-- The listener built by `new_listener default_config`. -/
def default_listener : Listener :=
  { config := default_config
    state := ListenerState.idle
    is_running := false
    engine_config := default_config
    callback := none }

/-- A configuration identical to the default except for spreading factor 0.
`validate` accepts it (it never looks at the spreading factor). -/
def sf0_config : SonicConfig :=
  { default_config with spreading_factor := 0 }

/-- The listener built by `new_listener sf0_config`. -/
def sf0_listener : Listener :=
  { config := sf0_config
    state := ListenerState.idle
    is_running := false
    engine_config := sf0_config
    callback := none }

/-- A 1024-sample buffer — a unit impulse followed by silence — whose
first-difference energy ratio trips the float-sample pre-filter. -/
noncomputable def spike_samples : List ℝ :=
  1 :: List.replicate 1023 0

/-- A 4-byte buffer that IS the watermark magic: the only occurrence of the
magic sits at position `len - 4 = 0`, the window the byte scan never visits. -/
def magic_only_buffer : List Nat := WATERMARK_MAGIC

/-! ## Helper lemmas -/

theorem pn_sequence_length (k : Nat) : (pn_sequence k).length = k := by
  simp [pn_sequence]

theorem getD_replicate_zero (n i : Nat) :
    (List.replicate n (0 : ℂ)).getD i 0 = 0 := by
  induction n generalizing i with
  | zero => simp [List.getD]
  | succ m ih =>
    cases i with
    | zero => simp [List.replicate_succ]
    | succ j => simp only [List.replicate_succ, List.getD_cons_succ]; exact ih j

theorem dft_length (x : List ℂ) : (dft x).length = x.length := by
  simp only [dft, List.length_map, List.length_range]

theorem dft_zeros (n : Nat) :
    dft (List.replicate n (0 : ℂ)) = List.replicate n 0 := by
  apply List.eq_replicate_iff.mpr
  constructor
  · rw [dft_length, List.length_replicate]
  · intro b hb
    simp only [dft, List.length_replicate, List.mem_map, List.mem_range] at hb
    obtain ⟨k, -, hk⟩ := hb
    rw [← hk]
    refine Finset.sum_eq_zero fun j _ => ?_
    rw [getD_replicate_zero, zero_mul]

set_option maxRecDepth 4096 in
theorem next_pow2_512 : next_pow2 512 = 512 := by decide

theorem compute_fft_zeros :
    compute_fft (List.replicate 512 (0 : ℝ)) = List.replicate 512 (0 : ℂ) := by
  have hmap : (List.replicate 512 (0 : ℝ)).map (fun (s : ℝ) => (s : ℂ)) =
      List.replicate 512 (0 : ℂ) := by
    rw [List.map_replicate, Complex.ofReal_zero]
  simp only [compute_fft, List.length_replicate, next_pow2_512, Nat.sub_self,
    List.replicate_zero, hmap, List.append_nil]
  exact dft_zeros 512

theorem zip_self_replicate {α β : Type} (l : List α) (a : β) :
    l.zip (List.replicate l.length a) = l.map (fun x => (x, a)) := by
  induction l with
  | nil => rfl
  | cons x xs ih => simp [List.replicate_succ, ih]

theorem enum_replicate (n : Nat) (c : ℝ) :
    (List.replicate n c).enum = (List.range n).map (fun i => (i, c)) := by
  rw [List.enum_eq_zip_range, List.length_replicate]
  have hlen : List.replicate n c = List.replicate (List.range n).length c := by
    rw [List.length_range]
  rw [hlen, zip_self_replicate]

theorem foldl_last_of_const (c : ℝ) : ∀ n : Nat,
    (List.range (n + 1)).foldl
      (fun acc i =>
        match acc with
        | none => some (i, c)
        | some q => if c < q.2 then some q else some (i, c))
      none = some (n, c) := by
  intro n
  induction n with
  | zero => simp [List.range_succ]
  | succ m ih =>
    rw [List.range_succ, List.foldl_append, ih]
    simp [lt_irrefl]

theorem max_by_last_replicate (n : Nat) (c : ℝ) :
    max_by_last (List.replicate (n + 1) c) = some (n, c) := by
  unfold max_by_last
  rw [enum_replicate, List.foldl_map]
  exact foldl_last_of_const c n

theorem max_by_last_rep16 :
    max_by_last (List.replicate 16 (0 : ℝ)) = some (15, 0) :=
  max_by_last_replicate 15 0

theorem range_step_by_chirp :
    range_step_by 0 256 16 =
      [0, 16, 32, 48, 64, 80, 96, 112, 128, 144, 160, 176, 192, 208, 224, 240] := by
  decide

theorem chirp_peak_eval (cs : Nat) (hcs : cs + 16 ≤ 256) :
    (match max_by_last
        ((((List.replicate 512 (0 : ℂ)).drop cs).take (min 16 (256 - cs))).map
          Complex.normSq) with
     | some p => p.1 + cs
     | none => 0) = 15 + cs := by
  have h1 : min 16 (256 - cs) = 16 := by omega
  have h2 : min 16 (512 - cs) = 16 := by omega
  rw [List.drop_replicate, h1, List.take_replicate, h2, List.map_replicate,
    Complex.normSq_zero, max_by_last_rep16]

/-- On an all-zero buffer the chirp detector fires: every 16-bin window of the
all-zero spectrum has its (last-maximal) peak at the window's last bin, so the
peak-bin sequence 15, 31, …, 255 counts as "rising" 16 times, exceeding 3. -/
theorem detect_chirp_sync_zeros (n : Nat) (h : 512 ≤ n) :
    detect_chirp_sync default_config (List.replicate n (0 : ℝ)) = true := by
  have hmin : min 512 n = 512 := by omega
  have htake : (List.replicate n (0 : ℝ)).take 512 = List.replicate 512 0 := by
    rw [List.take_replicate, hmin]
  have hnot : ¬(default_config.enable_chirp_sync = false ∨
      (List.replicate n (0 : ℝ)).length < 512) := by
    simp [default_config, List.length_replicate]
    omega
  unfold detect_chirp_sync
  rw [if_neg hnot]
  simp only [List.length_replicate, hmin, htake, compute_fft_zeros, Nat.reduceDiv,
    range_step_by_chirp]
  rw [List.foldl_ext _
    (fun (st : Nat × Nat) cs => (15 + cs, if st.1 < 15 + cs then st.2 + 1 else st.2))
    (0, 0)
    (by
      intro st cs hcs
      have hb : cs + 16 ≤ 256 := by
        fin_cases hcs <;> omega
      rw [chirp_peak_eval cs hb])]
  decide

theorem dot_zip_zero : ∀ (k : Nat) (l : List ℝ),
    (((List.replicate k (0 : ℝ)).zip l).map (fun p => p.1 * p.2)).sum = 0 := by
  intro k
  induction k with
  | zero => intro l; simp
  | succ m ih =>
    intro l
    cases l with
    | nil => simp
    | cons x xs => simp [List.replicate_succ, ih xs]

theorem fold_max_zero (f : Nat → ℝ) : ∀ l : List Nat,
    (∀ s ∈ l, f s = 0) → l.foldl (fun m s => max m (f s)) 0 = 0 := by
  intro l
  induction l with
  | nil => intro _; rfl
  | cons a t ih =>
    intro hall
    have ha : f a = 0 := hall a (by simp)
    have ht : ∀ s ∈ t, f s = 0 := fun s hs => hall s (by simp [hs])
    rw [List.foldl_cons, ha, max_self]
    exact ih ht

theorem pn_length_default : (pn_sequence default_config.spreading_factor).length = 100 := by
  rw [pn_sequence_length]
  rfl

theorem ss_correlation_zeros (n : Nat) (pn : List ℝ) (s : Nat) :
    ss_correlation (List.replicate n (0 : ℝ)) pn s = 0 := by
  unfold ss_correlation
  simp only [List.drop_replicate, List.take_replicate]
  rw [dot_zip_zero, abs_zero, zero_div]

/-- Spread-spectrum correlation on silence: every windowed dot product with
the ±1 sequence is zero, so confidence is 0 and nothing is detected. -/
theorem detect_ss_zeros (n : Nat) :
    detect_spread_spectrum default_config (List.replicate n (0 : ℝ)) = some (false, 0) := by
  unfold detect_spread_spectrum
  simp only [pn_length_default, List.length_replicate, Nat.reduceDiv]
  by_cases hn : n < 100
  · rw [if_pos hn]
  · rw [if_neg hn, if_neg (by decide : ¬(50 = 0))]
    rw [fold_max_zero (ss_correlation (List.replicate n (0 : ℝ))
        (pn_sequence default_config.spreading_factor))
      (range_step_by 0 (n - 100) 50)
      (fun s _ => ss_correlation_zeros n _ s)]
    norm_num [default_config]

/-- With spreading factor 0, `detect_spread_spectrum` reaches
`step_by(0 / 2) = step_by(0)` for every input and panics. -/
theorem detect_ss_sf0 (samples : List ℝ) :
    detect_spread_spectrum sf0_config samples = none := by
  unfold detect_spread_spectrum
  have hlen : (pn_sequence sf0_config.spreading_factor).length = 0 := by
    rw [pn_sequence_length]
    rfl
  simp [hlen]

theorem detect_ss_total (cfg : SonicConfig) (samples : List ℝ)
    (hsf : 2 ≤ cfg.spreading_factor) :
    ∃ p, detect_spread_spectrum cfg samples = some p := by
  unfold detect_spread_spectrum
  by_cases hlt : samples.length < (pn_sequence cfg.spreading_factor).length
  · rw [if_pos hlt]
    exact ⟨_, rfl⟩
  · have hstep : ¬((pn_sequence cfg.spreading_factor).length / 2 = 0) := by
      rw [pn_sequence_length]
      omega
    rw [if_neg hlt, if_neg hstep]
    exact ⟨_, rfl⟩

theorem pairs_replicate (n : Nat) :
    (List.replicate n (0 : ℝ)).zip (List.replicate n (0 : ℝ)).tail =
      List.replicate (n - 1) ((0 : ℝ), (0 : ℝ)) := by
  rw [List.tail_replicate, List.zip_replicate]
  congr 1
  omega

theorem detect_in_samples_zeros (n : Nat) (h : MIN_SAMPLES ≤ n) :
    detect_in_samples (List.replicate n (0 : ℝ)) = not_detected_result := by
  have h1024 : 1024 ≤ n := h
  unfold detect_in_samples
  rw [if_neg (show ¬((List.replicate n (0 : ℝ)).length < MIN_SAMPLES) by
    rw [List.length_replicate]
    show ¬(n < 1024)
    omega)]
  simp only [pairs_replicate, List.map_replicate, List.sum_replicate]
  norm_num

theorem detect_in_samples_spike :
    (detect_in_samples spike_samples).detected = true := by
  have hlen : spike_samples.length = 1024 := by
    show ((1 : ℝ) :: List.replicate 1023 0).length = 1024
    rw [List.length_cons, List.length_replicate]
  have hpairs : spike_samples.zip spike_samples.tail =
      ((1 : ℝ), (0 : ℝ)) :: List.replicate 1022 ((0 : ℝ), (0 : ℝ)) := by
    show ((1 : ℝ) :: List.replicate 1023 0).zip (List.replicate 1023 (0 : ℝ)) = _
    nth_rewrite 2 [show List.replicate 1023 (0 : ℝ) = 0 :: List.replicate 1022 0 from rfl]
    rw [List.zip_cons_cons, List.zip_replicate]
    norm_num
  unfold detect_in_samples
  rw [if_neg (by rw [hlen]; decide)]
  simp only [hpairs, List.map_cons, List.sum_cons, List.map_replicate, List.sum_replicate]
  split
  · rfl
  · rename_i hcond
    exfalso
    apply hcond
    simp only [smul_zero, sub_zero, zero_sub, abs_neg, abs_one, abs_zero, mul_zero,
      zero_mul, mul_one, one_mul, zero_add, add_zero, sub_self]
    norm_num

/-- The DSP engine on silence: spread-spectrum correlation is 0, but the chirp
detector fires, so the combined confidence is `max 0 0.7 = 0.7 > 0.5` and the
engine reports a (mock) detection with method "chirp_sync". -/
theorem dsp_process_zeros (n : Nat) (h : MIN_SAMPLES ≤ n) :
    dsp_process default_config (List.replicate n (0 : ℝ)) =
      some { mock_detected_result 0.7 with
             audio_quality := estimate_quality (List.replicate n (0 : ℝ))
             detection_method := "chirp_sync" } := by
  have h1024 : 1024 ≤ n := h
  have hmax : max (0 : ℝ) 0.7 = 0.7 := by norm_num
  unfold dsp_process
  rw [if_neg (show ¬((List.replicate n (0 : ℝ)).length < MIN_SAMPLES) by
    rw [List.length_replicate]
    show ¬(n < 1024)
    omega)]
  rw [detect_ss_zeros n]
  simp only [detect_chirp_sync_zeros n (by omega : 512 ≤ n), hmax, Bool.false_or,
    eq_self_iff_true, if_true, true_and]
  rw [if_pos (by norm_num [default_config] : default_config.detection_threshold < 0.7)]

/-- `process_samples` on 2048 samples of silence, fresh default listener:
returns Ok with `detected = true` (via the chirp-sync path), no events (no
sink registered), and the listener back in `Idle`. -/
theorem process_samples_zeros_default :
    process_samples default_listener (List.replicate 2048 (0 : ℝ)) =
      some (default_listener,
            Except.ok { mock_detected_result 0.7 with
                        audio_quality := estimate_quality (List.replicate 2048 (0 : ℝ))
                        detection_method := "chirp_sync" },
            []) := by
  unfold process_samples
  rw [if_neg (show ¬((List.replicate 2048 (0 : ℝ)).length < MIN_SAMPLES) by
    rw [List.length_replicate]
    decide)]
  rw [detect_in_samples_zeros 2048 (by decide)]
  rw [show dsp_process default_listener.engine_config (List.replicate 2048 (0 : ℝ)) =
        some { mock_detected_result 0.7 with
               audio_quality := estimate_quality (List.replicate 2048 (0 : ℝ))
               detection_method := "chirp_sync" } from
      dsp_process_zeros 2048 (by decide)]
  rfl

theorem new_listener_default : new_listener default_config = Except.ok default_listener := by
  unfold new_listener validate
  rw [if_neg (by norm_num [default_config]), if_neg (by norm_num [default_config]),
    if_neg (by norm_num [default_config])]
  rfl

theorem new_listener_sf0 : new_listener sf0_config = Except.ok sf0_listener := by
  unfold new_listener validate
  rw [if_neg (by norm_num [sf0_config, default_config]),
    if_neg (by norm_num [sf0_config, default_config]),
    if_neg (by norm_num [sf0_config, default_config])]
  rfl

theorem dsp_process_sf0 (samples : List ℝ) (h : ¬(samples.length < MIN_SAMPLES)) :
    dsp_process sf0_config samples = none := by
  unfold dsp_process
  rw [if_neg h, detect_ss_sf0]

theorem process_samples_sf0_zeros :
    process_samples sf0_listener (List.replicate 1024 (0 : ℝ)) = none := by
  unfold process_samples
  rw [if_neg (show ¬((List.replicate 1024 (0 : ℝ)).length < MIN_SAMPLES) by
    rw [List.length_replicate]
    decide)]
  rw [detect_in_samples_zeros 1024 (by decide)]
  rw [show dsp_process sf0_listener.engine_config (List.replicate 1024 (0 : ℝ)) = none from
    dsp_process_sf0 _ (by rw [List.length_replicate]; decide)]
  rfl

/-- The byte scan misses the final window: on a buffer that IS the magic, the
loop range `0..len-4 = 0..0` is empty, and the buffer is too short for the
high-byte branch, so nothing is detected. -/
theorem detect_in_bytes_magic_only :
    detect_in_bytes magic_only_buffer = not_detected_result := by
  unfold detect_in_bytes
  rw [if_neg (by decide), if_neg (by decide)]

theorem decode_pcm_length : ∀ data : List Nat, (decode_pcm data).length = data.length / 2
  | [] => by simp [decode_pcm]
  | [_] => by simp [decode_pcm]
  | _ :: _ :: rest => by
    simp only [decode_pcm, List.length_cons, decode_pcm_length rest]
    omega

/-- A `process_samples` call on a long-enough buffer never returns an error
value: every surviving branch is `Ok` (or the panic `none`). -/
theorem process_samples_not_error (l : Listener) (samples : List ℝ)
    (h : ¬(samples.length < MIN_SAMPLES)) (lp : Listener) (e : SonicError)
    (ev : List Event) :
    process_samples l samples ≠ some (lp, Except.error e, ev) := by
  intro hp
  unfold process_samples at hp
  rw [if_neg h] at hp
  dsimp only at hp
  cases hmock : (detect_in_samples samples).detected with
  | true =>
    rw [hmock] at hp
    simp at hp
  | false =>
    rw [hmock] at hp
    simp only [Bool.false_eq_true, if_false] at hp
    cases hdsp : dsp_process l.engine_config samples with
    | none =>
      rw [hdsp] at hp
      simp at hp
    | some result =>
      rw [hdsp] at hp
      simp at hp

/-- After a `process_samples` call that goes through the DSP engine (no float
pre-filter hit) and returns Ok, the state is Listening iff running else Idle. -/
theorem process_samples_state_dsp_path (l : Listener) (samples : List ℝ)
    (lp : Listener) (r : WatermarkResult) (ev : List Event)
    (hmock : (detect_in_samples samples).detected = false)
    (hp : process_samples l samples = some (lp, Except.ok r, ev)) :
    lp.state = (if l.is_running then ListenerState.listening else ListenerState.idle) ∧
      lp.state ≠ ListenerState.processing := by
  unfold process_samples at hp
  by_cases hshort : samples.length < MIN_SAMPLES
  · rw [if_pos hshort] at hp
    simp at hp
  · rw [if_neg hshort] at hp
    dsimp only at hp
    rw [hmock] at hp
    simp only [Bool.false_eq_true, if_false] at hp
    cases hdsp : dsp_process l.engine_config samples with
    | none =>
      rw [hdsp] at hp
      exact absurd hp (by simp)
    | some result =>
      rw [hdsp] at hp
      simp only [Option.some.injEq, Prod.mk.injEq] at hp
      obtain ⟨hl, -, -⟩ := hp
      subst hl
      refine ⟨rfl, ?_⟩
      cases hb : l.is_running <;> simp [hb]

/-- The same state discipline for `process_buffer` delegating to the DSP. -/
theorem process_buffer_state_dsp_path (l : Listener) (data : List Nat)
    (lp : Listener) (r : WatermarkResult) (ev : List Event)
    (hbytes : (detect_in_bytes data).detected = false)
    (hsamp : (detect_in_samples (decode_pcm data)).detected = false)
    (hp : process_buffer l data = some (lp, Except.ok r, ev)) :
    lp.state = (if l.is_running then ListenerState.listening else ListenerState.idle) ∧
      lp.state ≠ ListenerState.processing := by
  unfold process_buffer at hp
  by_cases hshort : data.length < MIN_SAMPLES * 2
  · rw [if_pos hshort] at hp
    simp at hp
  · rw [if_neg hshort] at hp
    dsimp only at hp
    rw [hbytes] at hp
    simp only [Bool.false_eq_true, if_false] at hp
    exact process_samples_state_dsp_path { l with state := ListenerState.processing }
      (decode_pcm data) lp r ev hsamp hp

/-! ## Claim theorems -/

/-- C1: the claim states that every all-silence float buffer of length ≥ 1024
yields `detected = false` under the default configuration.  The code violates
this: on 2048 zero samples (the repository's own `test_process_samples`
input) the chirp-sync sub-detector fires on the all-zero spectrum, the
combined confidence 0.7 exceeds the 0.5 threshold, and `process_samples`
returns a result with `detected = true`. -/
theorem c1_silence_is_detected :
    new_listener default_config = Except.ok default_listener ∧
    ∃ r ev,
      process_samples default_listener (List.replicate 2048 (0 : ℝ)) =
        some (default_listener, Except.ok r, ev) ∧
      r.detected = true :=
  ⟨new_listener_default, _, _, process_samples_zeros_default, rfl⟩

/-- C2 (counterexample): the claim says the magic marker at ANY position of a
≥ 4-byte buffer — including `i = len - 4` — yields confidence > 0.9.  On the
4-byte buffer that IS the magic (occurrence at `i = 0 = len - 4`), the byte
scan iterates `0..len-4 = 0..0` (empty) and returns not-detected with
confidence 0. -/
theorem c2_last_window_missed :
    (magic_only_buffer.drop 0).take 4 = WATERMARK_MAGIC ∧
    magic_only_buffer.length = 4 ∧
    detect_in_bytes magic_only_buffer = not_detected_result ∧
    ¬((0.9 : ℝ) < (detect_in_bytes magic_only_buffer).confidence) := by
  refine ⟨by decide, by decide, detect_in_bytes_magic_only, ?_⟩
  rw [detect_in_bytes_magic_only]
  show ¬((0.9 : ℝ) < 0)
  norm_num

/-- C2 (amended): for every position `i` with `i + 4 < len` — i.e. every
window except the last one, which the scan's exclusive upper bound skips — a
magic occurrence at `i` yields the 0.99-confidence pre-filter detection,
regardless of the other bytes. -/
theorem c2_magic_detected_before_last_window (data : List Nat) (i : Nat)
    (hlt : i + 4 < data.length) (hmagic : (data.drop i).take 4 = WATERMARK_MAGIC) :
    detect_in_bytes data = mock_detected_result 0.99 ∧
    (0.9 : ℝ) < (detect_in_bytes data).confidence := by
  have hscan : magic_scan_hit data = true := by
    unfold magic_scan_hit
    rw [List.any_eq_true]
    exact ⟨i, List.mem_range.mpr (by omega), beq_iff_eq.mpr hmagic⟩
  have heq : detect_in_bytes data = mock_detected_result 0.99 := by
    unfold detect_in_bytes
    rw [if_pos ⟨by omega, hscan⟩]
  refine ⟨heq, ?_⟩
  rw [heq]
  show (0.9 : ℝ) < 0.99
  norm_num

/-- C2 (witness): the magic at position 0 of the 5-byte buffer
`magic ++ [0]` (so `0 + 4 < 5`) is detected with confidence 0.99 > 0.9. -/
theorem c2_magic_detected_witness :
    detect_in_bytes (WATERMARK_MAGIC ++ [0]) = mock_detected_result 0.99 ∧
    (0.9 : ℝ) < (detect_in_bytes (WATERMARK_MAGIC ++ [0])).confidence :=
  c2_magic_detected_before_last_window (WATERMARK_MAGIC ++ [0]) 0 (by decide) (by decide)

/-- C3: the claim states every validated configuration makes `process_samples`
total.  The code violates it: `validate` never looks at the spreading factor,
so it accepts spreading factor 0; with it, `detect_spread_spectrum` reaches
`step_by(0 / 2) = step_by(0)`, which panics (modelled as `none`), on any
buffer of ≥ 1024 samples. -/
theorem c3_validated_config_panics :
    new_listener sf0_config = Except.ok sf0_listener ∧
    process_samples sf0_listener (List.replicate 1024 (0 : ℝ)) = none :=
  ⟨new_listener_sf0, process_samples_sf0_zeros⟩

/-- C4: for every input the DSP engine processes (≥ 1024 samples; spreading
factor ≥ 2 so the correlation loop does not panic), the result satisfies:
detected ↔ (spread-spectrum-detected OR chirp-detected) AND combined
confidence > threshold, where the combined confidence is
`max(ss_confidence, 0.7)` when the chirp sub-detector fired and the raw
spread-spectrum confidence otherwise. -/
theorem c4_engine_combination (cfg : SonicConfig) (samples : List ℝ)
    (hlen : MIN_SAMPLES ≤ samples.length) (hsf : 2 ≤ cfg.spreading_factor) :
    ∃ (ss_detected : Bool) (ss_confidence : ℝ) (r : WatermarkResult),
      detect_spread_spectrum cfg samples = some (ss_detected, ss_confidence) ∧
      dsp_process cfg samples = some r ∧
      r.confidence =
        (if detect_chirp_sync cfg samples then max ss_confidence 0.7 else ss_confidence) ∧
      (r.detected = true ↔
        ((ss_detected || detect_chirp_sync cfg samples) = true ∧
          cfg.detection_threshold <
            (if detect_chirp_sync cfg samples then max ss_confidence 0.7 else ss_confidence))) := by
  obtain ⟨p, hss⟩ := detect_ss_total cfg samples hsf
  obtain ⟨ssd, ssc⟩ := p
  refine ⟨ssd, ssc, ?_⟩
  have hne : ¬(samples.length < MIN_SAMPLES) := Nat.not_lt.mpr hlen
  unfold dsp_process
  rw [if_neg hne, hss]
  dsimp only
  by_cases hc : (ssd || detect_chirp_sync cfg samples) = true ∧
      cfg.detection_threshold <
        (if detect_chirp_sync cfg samples then max ssc 0.7 else ssc)
  · rw [if_pos hc]
    exact ⟨_, rfl, rfl, rfl, iff_of_true rfl hc⟩
  · rw [if_neg hc]
    exact ⟨_, rfl, rfl, rfl, iff_of_false (by simp) hc⟩

/-- C4 (witness): the engine combination rule instantiated at the default
configuration on 1024 samples of silence. -/
theorem c4_engine_combination_witness :
    ∃ (ss_detected : Bool) (ss_confidence : ℝ) (r : WatermarkResult),
      detect_spread_spectrum default_config (List.replicate 1024 (0 : ℝ)) =
        some (ss_detected, ss_confidence) ∧
      dsp_process default_config (List.replicate 1024 (0 : ℝ)) = some r ∧
      r.confidence =
        (if detect_chirp_sync default_config (List.replicate 1024 (0 : ℝ)) then
          max ss_confidence 0.7 else ss_confidence) ∧
      (r.detected = true ↔
        ((ss_detected || detect_chirp_sync default_config (List.replicate 1024 (0 : ℝ))) = true ∧
          default_config.detection_threshold <
            (if detect_chirp_sync default_config (List.replicate 1024 (0 : ℝ)) then
              max ss_confidence 0.7 else ss_confidence))) :=
  c4_engine_combination default_config (List.replicate 1024 (0 : ℝ))
    (by rw [List.length_replicate]; decide) (by decide)

/-- C5 (counterexample): the claim states the post-call state is never
Processing, on any successful path including a pre-filter hit.  On the spike
buffer, `detect_in_samples` fires, `process_samples` returns early, and the
state it set on entry — Processing — is never reset, although the listener is
not running (so the claim demands Idle). -/
theorem c5_prefilter_exit_stays_processing :
    default_listener.is_running = false ∧
    (∃ r ev,
      process_samples default_listener spike_samples =
        some ({ default_listener with state := ListenerState.processing },
              Except.ok r, ev)) ∧
    ListenerState.processing ≠ ListenerState.idle := by
  have hlen : ¬(spike_samples.length < MIN_SAMPLES) := by
    show ¬(((1 : ℝ) :: List.replicate 1023 0).length < MIN_SAMPLES)
    rw [List.length_cons, List.length_replicate]
    decide
  refine ⟨rfl, ⟨detect_in_samples spike_samples, [], ?_⟩, by decide⟩
  unfold process_samples
  rw [if_neg hlen]
  dsimp only
  rw [if_pos detect_in_samples_spike]
  rfl

/-- C5 (amended): after a successful `process_buffer` or `process_samples`
call that went through the DSP path (no heuristic pre-filter hit), the state
is Listening if the running flag is set, else Idle — never Processing.  A
call that returns via a pre-filter hit instead leaves the state at
Processing. -/
theorem c5_state_after_call :
    (∀ (l : Listener) (samples : List ℝ) (lp : Listener) (r : WatermarkResult)
        (ev : List Event),
      (detect_in_samples samples).detected = false →
      process_samples l samples = some (lp, Except.ok r, ev) →
      lp.state = (if l.is_running then ListenerState.listening else ListenerState.idle) ∧
        lp.state ≠ ListenerState.processing) ∧
    (∀ (l : Listener) (data : List Nat) (lp : Listener) (r : WatermarkResult)
        (ev : List Event),
      (detect_in_bytes data).detected = false →
      (detect_in_samples (decode_pcm data)).detected = false →
      process_buffer l data = some (lp, Except.ok r, ev) →
      lp.state = (if l.is_running then ListenerState.listening else ListenerState.idle) ∧
        lp.state ≠ ListenerState.processing) ∧
    (∀ (l : Listener) (samples : List ℝ),
      ¬(samples.length < MIN_SAMPLES) →
      (detect_in_samples samples).detected = true →
      ∃ ev,
        process_samples l samples =
          some ({ l with state := ListenerState.processing },
                Except.ok (detect_in_samples samples), ev)) := by
  refine ⟨process_samples_state_dsp_path, process_buffer_state_dsp_path, ?_⟩
  intro l samples hlen hdet
  unfold process_samples
  rw [if_neg hlen]
  dsimp only
  rw [if_pos hdet]
  exact ⟨_, rfl⟩

/-- C5 (witness): the amended statement exercised on the spike buffer with
the default listener — the pre-filter hit path returns with state
Processing. -/
theorem c5_state_after_call_witness :
    ∃ ev,
      process_samples default_listener spike_samples =
        some ({ default_listener with state := ListenerState.processing },
              Except.ok (detect_in_samples spike_samples), ev) :=
  c5_state_after_call.2.2 default_listener spike_samples
    (by
      show ¬(((1 : ℝ) :: List.replicate 1023 0).length < MIN_SAMPLES)
      rw [List.length_cons, List.length_replicate]
      decide)
    detect_in_samples_spike

/-- `process_buffer` on a short buffer: the guard fires before anything else. -/
theorem process_buffer_short (l : Listener) (data : List Nat)
    (h : data.length < MIN_SAMPLES * 2) :
    process_buffer l data =
      some (l, Except.error (SonicError.bufferTooShort (MIN_SAMPLES * 2)), []) := by
  unfold process_buffer
  rw [if_pos h]

/-- `process_samples` on a short buffer. -/
theorem process_samples_short (l : Listener) (samples : List ℝ)
    (h : samples.length < MIN_SAMPLES) :
    process_samples l samples =
      some (l, Except.error (SonicError.bufferTooShort MIN_SAMPLES), []) := by
  unfold process_samples
  rw [if_pos h]

/-- A long-enough `process_buffer` call never returns an error value. -/
theorem process_buffer_not_error (l : Listener) (data : List Nat)
    (h : ¬(data.length < MIN_SAMPLES * 2)) (lp : Listener) (e : SonicError)
    (ev : List Event) :
    process_buffer l data ≠ some (lp, Except.error e, ev) := by
  intro hp
  unfold process_buffer at hp
  rw [if_neg h] at hp
  dsimp only at hp
  cases hmock : (detect_in_bytes data).detected with
  | true =>
    rw [hmock] at hp
    simp at hp
  | false =>
    rw [hmock] at hp
    simp only [Bool.false_eq_true, if_false] at hp
    exact process_samples_not_error _ _
      (by
        rw [decode_pcm_length]
        omega)
      lp e ev hp

/-- C6: `process_buffer` fails with `BufferTooShort(2048)` exactly when its
byte input has fewer than 2048 bytes, and `process_samples` fails with
`BufferTooShort(1024)` exactly when its float input has fewer than 1024
samples; on these errors the listener is unchanged and no event is emitted
(no detection is attempted). -/
theorem c6_buffer_too_short_exactly :
    ∀ (l : Listener) (data : List Nat) (samples : List ℝ),
      (data.length < 2048 →
        process_buffer l data =
          some (l, Except.error (SonicError.bufferTooShort 2048), [])) ∧
      (∀ lp e ev, process_buffer l data = some (lp, Except.error e, ev) →
        data.length < 2048 ∧ e = SonicError.bufferTooShort 2048 ∧ lp = l ∧ ev = []) ∧
      (samples.length < 1024 →
        process_samples l samples =
          some (l, Except.error (SonicError.bufferTooShort 1024), [])) ∧
      (∀ lp e ev, process_samples l samples = some (lp, Except.error e, ev) →
        samples.length < 1024 ∧ e = SonicError.bufferTooShort 1024 ∧ lp = l ∧ ev = []) := by
  intro l data samples
  refine ⟨fun h => process_buffer_short l data h, fun lp e ev hp => ?_,
    fun h => process_samples_short l samples h, fun lp e ev hp => ?_⟩
  · by_cases hlen : data.length < 2048
    · rw [process_buffer_short l data hlen] at hp
      simp only [Option.some.injEq, Prod.mk.injEq, Except.error.injEq,
        SonicError.bufferTooShort.injEq] at hp
      obtain ⟨h1, h2, h3⟩ := hp
      exact ⟨hlen, h2.symm ▸ rfl, h1.symm, h3.symm⟩
    · exact absurd hp (process_buffer_not_error l data hlen lp e ev)
  · by_cases hlen : samples.length < 1024
    · rw [process_samples_short l samples hlen] at hp
      simp only [Option.some.injEq, Prod.mk.injEq, Except.error.injEq,
        SonicError.bufferTooShort.injEq] at hp
      obtain ⟨h1, h2, h3⟩ := hp
      exact ⟨hlen, h2.symm ▸ rfl, h1.symm, h3.symm⟩
    · exact absurd hp (process_samples_not_error l samples hlen lp e ev)

/-- C6 (witness): a 4-byte buffer and an empty sample list produce exactly the
stated errors with the listener unchanged. -/
theorem c6_buffer_too_short_witness :
    process_buffer default_listener (List.replicate 4 0) =
      some (default_listener, Except.error (SonicError.bufferTooShort 2048), []) ∧
    process_samples default_listener [] =
      some (default_listener, Except.error (SonicError.bufferTooShort 1024), []) :=
  ⟨(c6_buffer_too_short_exactly default_listener (List.replicate 4 0) []).1 (by decide),
   (c6_buffer_too_short_exactly default_listener [] []).2.2.1 (by decide)⟩

/-- C7: `start_listening` fails with `ListenerAlreadyRunning` iff the running
flag is set (and then changes nothing); `stop_listening` fails with
`ListenerNotRunning` iff it is not set (and then changes nothing); a second
start without an intervening stop therefore fails. -/
theorem c7_start_stop_errors (l : Listener) :
    ((start_listening l).2.1 = Except.error SonicError.listenerAlreadyRunning ↔
      l.is_running = true) ∧
    (l.is_running = true →
      (start_listening l).1 = l ∧ (start_listening l).2.2 = []) ∧
    (l.is_running = false →
      (start_listening l).2.1 = Except.ok () ∧
      (start_listening l).1.is_running = true ∧
      (start_listening ((start_listening l).1)).2.1 =
        Except.error SonicError.listenerAlreadyRunning) ∧
    ((stop_listening l).2.1 = Except.error SonicError.listenerNotRunning ↔
      l.is_running = false) ∧
    (l.is_running = false →
      (stop_listening l).1 = l ∧ (stop_listening l).2.2 = []) := by
  cases hb : l.is_running <;>
    simp [start_listening, stop_listening, hb]

/-- C7 (witness): on a fresh default listener, start succeeds, a second start
fails with `ListenerAlreadyRunning`, and stop without a start fails with
`ListenerNotRunning`. -/
theorem c7_start_stop_errors_witness :
    (start_listening default_listener).2.1 = Except.ok () ∧
    (start_listening ((start_listening default_listener).1)).2.1 =
      Except.error SonicError.listenerAlreadyRunning ∧
    (stop_listening default_listener).2.1 =
      Except.error SonicError.listenerNotRunning := by
  obtain ⟨-, -, h3, h4, -⟩ := c7_start_stop_errors default_listener
  exact ⟨(h3 rfl).1, (h3 rfl).2.2, h4.mpr rfl⟩

/-- C8: `set_detection_threshold v` updates both stored thresholds to `v`
when `0 ≤ v ≤ 1`, otherwise changes nothing; every other field (both
configurations, state, running flag, sink) is unchanged in either case. -/
theorem c8_threshold_setter (l : Listener) (threshold : ℝ) :
    (0 ≤ threshold ∧ threshold ≤ 1 →
      (set_detection_threshold l threshold).config.detection_threshold = threshold ∧
      (set_detection_threshold l threshold).engine_config.detection_threshold = threshold) ∧
    (¬(0 ≤ threshold ∧ threshold ≤ 1) → set_detection_threshold l threshold = l) ∧
    (set_detection_threshold l threshold).config.sample_rate = l.config.sample_rate ∧
    (set_detection_threshold l threshold).config.frame_size_ms = l.config.frame_size_ms ∧
    (set_detection_threshold l threshold).config.spreading_factor =
      l.config.spreading_factor ∧
    (set_detection_threshold l threshold).config.enable_chirp_sync =
      l.config.enable_chirp_sync ∧
    (set_detection_threshold l threshold).engine_config.sample_rate =
      l.engine_config.sample_rate ∧
    (set_detection_threshold l threshold).engine_config.frame_size_ms =
      l.engine_config.frame_size_ms ∧
    (set_detection_threshold l threshold).engine_config.spreading_factor =
      l.engine_config.spreading_factor ∧
    (set_detection_threshold l threshold).engine_config.enable_chirp_sync =
      l.engine_config.enable_chirp_sync ∧
    (set_detection_threshold l threshold).state = l.state ∧
    (set_detection_threshold l threshold).is_running = l.is_running ∧
    (set_detection_threshold l threshold).callback = l.callback := by
  by_cases h : 0 ≤ threshold ∧ threshold ≤ 1 <;>
    simp [set_detection_threshold, h]

/-- C8 (witness): 0.8 is applied to both configurations; 1.5 and -1.0 are
silently ignored. -/
theorem c8_threshold_setter_witness :
    (set_detection_threshold default_listener 0.8).config.detection_threshold = 0.8 ∧
    (set_detection_threshold default_listener 0.8).engine_config.detection_threshold = 0.8 ∧
    set_detection_threshold default_listener 1.5 = default_listener ∧
    set_detection_threshold default_listener (-1.0) = default_listener :=
  ⟨((c8_threshold_setter default_listener 0.8).1 (by norm_num)).1,
   ((c8_threshold_setter default_listener 0.8).1 (by norm_num)).2,
   (c8_threshold_setter default_listener 1.5).2.1 (by norm_num),
   (c8_threshold_setter default_listener (-1.0)).2.1 (by norm_num)⟩

theorem append_length_pos (pre e : String) (h : 0 < pre.length) :
    0 < (pre ++ e).length := by
  rw [String.length_append]
  omega

/-- C9: `verify_signature` is total and returns `valid = true` exactly when
key parsing, signature parsing, and cryptographic verification all succeed;
on every failure (wrong key length, rejected key or signature encoding, or
failed verification — as for the all-zero signature/key of the repository's
own test) the result is `valid = false` with a non-empty error message. -/
theorem c9_verify_signature_failures (B : Ed25519Backend)
    (message signature public_key : List Nat) :
    ((verify_signature B message signature public_key).valid = true ↔
      ed25519_ok B message signature public_key) ∧
    (¬ed25519_ok B message signature public_key →
      (verify_signature B message signature public_key).valid = false ∧
      ∃ m, (verify_signature B message signature public_key).error_message = some m ∧
        0 < m.length) := by
  unfold verify_signature ed25519_ok
  by_cases hpk : public_key.length = 32
  · rw [if_pos hpk]
    cases hk : B.parse_key_error public_key with
    | some e =>
      refine ⟨by simp [hk, hpk], fun hn => ⟨rfl, _, rfl, append_length_pos _ e (by decide)⟩⟩
    | none =>
      cases hs : B.parse_sig_error signature with
      | some e =>
        refine ⟨by simp [hk, hs, hpk], fun hn =>
          ⟨rfl, _, rfl, append_length_pos _ e (by decide)⟩⟩
      | none =>
        cases hv : B.verify_error message signature public_key with
        | some e =>
          refine ⟨by simp [hk, hs, hv, hpk], fun hn =>
            ⟨rfl, _, rfl, append_length_pos _ e (by decide)⟩⟩
        | none =>
          refine ⟨by simp [hk, hs, hv, hpk], fun hn =>
            absurd ⟨hpk, rfl, rfl, rfl⟩ hn⟩
  · rw [if_neg hpk]
    exact ⟨by simp [hpk], fun hn => ⟨rfl, _, rfl, by decide⟩⟩

/-- C9 (witness): an all-zero 64-byte signature with an all-zero 32-byte key,
on a backend rejecting that pair as the library does in the repository's
test, yields `valid = false` with a non-empty message. -/
theorem c9_verify_signature_witness :
    (verify_signature rejecting_backend test_message_bytes
        (List.replicate 64 0) (List.replicate 32 0)).valid = false ∧
    ∃ m,
      (verify_signature rejecting_backend test_message_bytes
          (List.replicate 64 0) (List.replicate 32 0)).error_message = some m ∧
      0 < m.length :=
  (c9_verify_signature_failures rejecting_backend test_message_bytes
      (List.replicate 64 0) (List.replicate 32 0)).2
    (by simp [ed25519_ok, rejecting_backend])

/-- C10: stopping the listener does not clear the registered sink: after a
successful start followed by stop, the sink is still registered, and every
subsequent `process_samples` call that returns still delivers the audio-level
event to it — and the detection event, whenever the returned result is a
detection. -/
theorem c10_sink_survives_stop (cfg : SonicConfig) (l0 : Listener)
    (h0 : new_listener cfg = Except.ok l0) :
    (start_listening l0).2.1 = Except.ok () ∧
    (stop_listening (start_listening l0).1).2.1 = Except.ok () ∧
    (stop_listening (start_listening l0).1).1.callback = some () ∧
    (∀ (samples : List ℝ) (lp : Listener) (res : Except SonicError WatermarkResult)
        (ev : List Event),
      ¬(samples.length < MIN_SAMPLES) →
      process_samples (stop_listening (start_listening l0).1).1 samples =
        some (lp, res, ev) →
      Event.audio_level (audio_level_db samples) ∈ ev ∧
      (∀ r, res = Except.ok r → r.detected = true →
        Event.watermark_detected r ∈ ev)) := by
  have hl0 : l0.is_running = false ∧ l0.callback = none := by
    unfold new_listener at h0
    cases hval : validate cfg with
    | error e =>
      rw [hval] at h0
      exact absurd h0 (by simp)
    | ok u =>
      rw [hval] at h0
      simp only [Except.ok.injEq] at h0
      rw [← h0]
      exact ⟨rfl, rfl⟩
  obtain ⟨hrun, hcb⟩ := hl0
  have hstart : start_listening l0 =
      ({ l0 with
          callback := some ()
          is_running := true
          state := ListenerState.listening },
       Except.ok (), [Event.state_changed ListenerState.listening]) := by
    unfold start_listening
    rw [if_neg (by rw [hrun]; simp)]
  rw [hstart]
  have hstop : stop_listening
      ({ l0 with
          callback := some ()
          is_running := true
          state := ListenerState.listening } : Listener) =
      ({ l0 with
          callback := some ()
          is_running := false
          state := ListenerState.idle },
       Except.ok (), [Event.state_changed ListenerState.idle]) := by
    unfold stop_listening
    rw [if_neg (by simp)]
    rfl
  rw [hstop]
  refine ⟨rfl, rfl, rfl, ?_⟩
  intro samples lp res ev hlen hp
  unfold process_samples at hp
  rw [if_neg hlen] at hp
  dsimp only at hp
  cases hmock : (detect_in_samples samples).detected with
  | true =>
    rw [hmock] at hp
    simp only [eq_self_iff_true, if_true, Option.some.injEq, Prod.mk.injEq] at hp
    obtain ⟨-, hres, hev⟩ := hp
    constructor
    · rw [← hev]
      simp [emit_events]
    · intro r hr hdet
      rw [← hres] at hr
      simp only [Except.ok.injEq] at hr
      rw [← hev, ← hr]
      simp [emit_events]
  | false =>
    rw [hmock] at hp
    simp only [Bool.false_eq_true, if_false] at hp
    cases hdsp : dsp_process l0.engine_config samples with
    | none =>
      rw [hdsp] at hp
      exact absurd hp (by simp)
    | some result =>
      rw [hdsp] at hp
      simp only [Option.some.injEq, Prod.mk.injEq] at hp
      obtain ⟨-, hres, hev⟩ := hp
      constructor
      · rw [← hev]
        simp
      · intro r hr hdet
        rw [← hres] at hr
        simp only [Except.ok.injEq] at hr
        rw [← hev, ← hr]
        rw [← hr] at hdet
        simp [emit_events, hdet]

/-- C10 (witness): after starting and stopping the default listener, the sink
registered at start is still present. -/
theorem c10_sink_survives_stop_witness :
    (stop_listening (start_listening default_listener).1).1.callback = some () :=
  (c10_sink_survives_stop default_config default_listener new_listener_default).2.2.1

end VouchSonic
